import Mathlib

/-!
Shallow embedding of the request-handling logic of
src/docs/backend/function.go (package http of screencovid.com's backend).

The handler is a single pure function parameterised over an environment
of oracles standing for the external collaborators the Go code calls
(encoding/json decoding, the outbound HTTP POST of the verification
client, the object-store write, the process clock).  Every effect the
handler performs is recorded in a trace inside the returned
HandlerResult, so that claims about which calls are made on which paths
become statements about the trace.
-/

/-- Source: const LIMIT int64 = 32768 — caps the number of request-body
bytes read (io.LimitReader(r.Body, LIMIT)). -/
def LIMIT : Nat := 32768

/-- Source: const recaptchaServerName — the fixed external verification
URL the client posts to. -/
def recaptchaServerName : String := "https://www.google.com/recaptcha/api/siteverify"

/-- Source: type serverRequest — the decoded submission.  The Go field
Answers is a json.RawMessage, i.e. uninterpreted bytes, modelled here as
a list of byte values. -/
structure serverRequest where
  reCaptchaToken : String
  id : String
  answers : List Nat
deriving DecidableEq

/-- Source: type serverResponse — the JSON response envelope with fields
status and message. -/
structure serverResponse where
  status : String
  message : String
deriving DecidableEq

/-- Source: type recaptchaResponse.  The handler only ever reads the
Success flag; the remaining fields (Score float64, Action,
ChallengeTS time.Time, Hostname, ErrorCodes) are never consulted by any
code under verification, so only the flag is carried here. -/
structure recaptchaResponse where
  success : Bool
deriving DecidableEq

/-- The wall-clock instant time.Now() returns, as the five calendar
fields the Go layout string 2006/01/02/15/04/ extracts. -/
structure goTime where
  year : Nat
  month : Nat
  day : Nat
  hour : Nat
  minute : Nat
deriving DecidableEq

/-- Two-digit zero padding, as Go's 01, 02, 15, 04 layout components. -/
def pad2 (n : Nat) : String :=
  if n < 10 then "0" ++ toString n else toString n

/-- Four-digit zero padding, as Go's 2006 layout component. -/
def pad4 (n : Nat) : String :=
  if n < 10 then "000" ++ toString n
  else if n < 100 then "00" ++ toString n
  else if n < 1000 then "0" ++ toString n
  else toString n

/-- Source: time.Now().Format("2006/01/02/15/04/") — the time prefix of
every storage key. -/
def formatTimeKey (t : goTime) : String :=
  pad4 t.year ++ "/" ++ pad2 t.month ++ "/" ++ pad2 t.day ++ "/" ++
    pad2 t.hour ++ "/" ++ pad2 t.minute ++ "/"

/-- The two package-level configuration strings read from the
environment in init(): RECAPTCHA_PRIVATE_KEY and RECAPTCHA_BYPASS.
An empty string models the unset variable, exactly as in Go. -/
structure Config where
  recaptchaPrivateKey : String
  recaptchaBypass : String

/-- Oracles for the external collaborators of the handler.
postFormResult: outcome of http.PostForm — either a transport error or
a response whose body read (ioutil.ReadAll) yields an error or bytes.
decodeRecaptcha: json.Unmarshal of the verification response body.
decodeBody: json.Unmarshal of the request body into serverRequest
(none models a decode error).
marshalAnswers: json.Marshal of the raw answers field.
addRecordResult: outcome of addRecord (some e is a write error).
now: the value time.Now() observes. -/
structure Env where
  postFormResult : String → List (String × String) → Except String (Except String (List Nat))
  decodeRecaptcha : List Nat → Except String recaptchaResponse
  decodeBody : List Nat → Option serverRequest
  marshalAnswers : List Nat → List Nat
  addRecordResult : String → List Nat → Option String
  now : goTime

/-- Source: the url.Values literal of checkRecaptchaToken, line 61:
secret is the configured private key, remoteip the first parameter,
response the second parameter. -/
def recaptchaFormValues (privateKey remoteip response : String) : List (String × String) :=
  [("secret", privateKey), ("remoteip", remoteip), ("response", response)]

/-- Source: func checkRecaptchaToken(remoteip, response string).  Posts
the form to recaptchaServerName, reads the body, unmarshals it.  The
second component records the outbound PostForm calls made (always
exactly one, with the form values built from the two parameters). -/
def checkRecaptchaToken (env : Env) (cfg : Config) (remoteip response : String) :
    Except String recaptchaResponse × List (String × List (String × String)) :=
  let form := recaptchaFormValues cfg.recaptchaPrivateKey remoteip response
  let calls := [(recaptchaServerName, form)]
  match env.postFormResult recaptchaServerName form with
  | .error e => (.error ("Post to recaptcha error " ++ e), calls)
  | .ok (.error e) => (.error ("Read error: could not read body " ++ e), calls)
  | .ok (.ok body) =>
    match env.decodeRecaptcha body with
    | .error e => (.error ("Read error: got invalid JSON " ++ e), calls)
    | .ok r => (.ok r, calls)

/-- The parts of the incoming *http.Request the handler reads: the
method, the body bytes, whether reading the body fails, and the
X-Forwarded-For header value. -/
structure HttpRequest where
  method : String
  body : List Nat
  bodyReadError : Option String
  xForwardedFor : String
deriving DecidableEq

/-- Everything observable the handler does: response headers set,
a direct WriteHeader status (the OPTIONS branch), every jsonResponse
call in order (status code and envelope), the byte strings handed to
json.Unmarshal, the outbound PostForm calls of the verification client,
and the addRecord calls (key and payload). -/
structure HandlerResult where
  headers : List (String × String) := []
  wroteStatus : Option Nat := none
  responses : List (Nat × serverResponse) := []
  decodeInputs : List (List Nat) := []
  postFormCalls : List (String × List (String × String)) := []
  storageCalls : List (String × List Nat) := []
deriving DecidableEq

/-- Source: func jsonResponse — marshals the envelope and writes it with
the given status code; modelled as appending to the response trace. -/
def jsonResponse (acc : HandlerResult) (c : Nat) (d : serverResponse) : HandlerResult :=
  { acc with responses := acc.responses ++ [(c, d)] }

/-- The five headers the OPTIONS (preflight) branch sets, lines 123 to
127 of the source, in order. -/
def corsPreflightHeaders : List (String × String) :=
  [("Access-Control-Allow-Credentials", "true"),
   ("Access-Control-Allow-Headers", "Authorization"),
   ("Access-Control-Allow-Methods", "POST"),
   ("Access-Control-Allow-Origin", "https://screencovid.com"),
   ("Access-Control-Max-Age", "3600")]

/-- The two headers set for the main (non-preflight) request, lines 132
and 133 of the source. -/
def mainCorsHeaders : List (String × String) :=
  [("Access-Control-Allow-Credentials", "true"),
   ("Access-Control-Allow-Origin", "https://screencovid.com")]

/-- Source lines 159 to 168: re-marshal the raw answers, build the key
from the formatted current time and the caller id, call addRecord,
answer 500 with the error text on failure and 200 ok thank you on
success. -/
def storageStep (env : Env) (t : serverRequest) (acc : HandlerResult) : HandlerResult :=
  let answers := env.marshalAnswers t.answers
  let key := formatTimeKey env.now ++ t.id
  let acc := { acc with storageCalls := acc.storageCalls ++ [(key, answers)] }
  match env.addRecordResult key answers with
  | some e => jsonResponse acc 500 ⟨"error", "failed to upload data " ++ e⟩
  | none => jsonResponse acc 200 ⟨"ok", "thank you"⟩

/-- Source lines 148 to 158: the conditional verification step.  The
guard is the Go condition of line 149 verbatim.  A verification-call
error answers 500 and stops; a false success flag answers 400 but falls
through to the storage step (no return in the Go source on that
branch); a true flag falls through silently. -/
def verificationStep (env : Env) (cfg : Config) (r : HttpRequest) (t : serverRequest)
    (acc : HandlerResult) : HandlerResult :=
  if cfg.recaptchaPrivateKey ≠ "" ∧
      (cfg.recaptchaBypass = "" ∨ t.reCaptchaToken ≠ cfg.recaptchaBypass) then
    let call := checkRecaptchaToken env cfg t.reCaptchaToken r.xForwardedFor
    let acc := { acc with postFormCalls := acc.postFormCalls ++ call.2 }
    match call.1 with
    | .error e => jsonResponse acc 500 ⟨"error", e⟩
    | .ok rr =>
      if !rr.success then
        storageStep env t (jsonResponse acc 400 ⟨"error", "recaptcha thinks your are a bot"⟩)
      else
        storageStep env t acc
  else
    storageStep env t acc

/-- Source: func CORSEnabledFunctionAuth, lines 120 to 169.  OPTIONS
requests get the five preflight headers and a bare 204 and return at
once; every other method sets the two main CORS headers, reads at most
LIMIT bytes of the body, decodes them, then runs verification and
storage. -/
def CORSEnabledFunctionAuth (env : Env) (cfg : Config) (r : HttpRequest) : HandlerResult :=
  if r.method = "OPTIONS" then
    { headers := corsPreflightHeaders, wroteStatus := some 204 }
  else
    let acc : HandlerResult := { headers := mainCorsHeaders }
    match r.bodyReadError with
    | some _ => jsonResponse acc 400 ⟨"error", "must supply a payload"⟩
    | none =>
      let data := r.body.take LIMIT
      let acc := { acc with decodeInputs := acc.decodeInputs ++ [data] }
      match env.decodeBody data with
      | none => jsonResponse acc 400 ⟨"error", "error parsing input"⟩
      | some t => verificationStep env cfg r t acc

/-! ### Concrete fixtures

Small closed environments, configurations and requests on which the
theorems below are instantiated. -/

/-- A sample decoded submission. -/
def tW : serverRequest := { reCaptchaToken := "tok", id := "abc", answers := [49, 50] }

/-- A sample clock value. -/
def nowW : goTime := { year := 2020, month := 3, day := 4, hour := 5, minute := 6 }

/-- Environment whose verification service answers with a false success
flag and whose storage write succeeds. -/
def envBot : Env :=
  { postFormResult := fun _ _ => .ok (.ok []),
    decodeRecaptcha := fun _ => .ok { success := false },
    decodeBody := fun _ => some tW,
    marshalAnswers := fun l => l,
    addRecordResult := fun _ _ => none,
    now := nowW }

/-- Environment with successful verification and storage. -/
def envOk : Env := { envBot with decodeRecaptcha := fun _ => .ok { success := true } }

/-- Environment with successful verification whose storage write fails
with the text boom. -/
def envFail : Env :=
  { envBot with decodeRecaptcha := fun _ => .ok { success := true },
                addRecordResult := fun _ _ => some "boom" }

/-- Environment whose request-body decode fails. -/
def envBad : Env := { envBot with decodeBody := fun _ => none }

/-- Configuration with a private key and no bypass. -/
def cfgKey : Config := { recaptchaPrivateKey := "pk", recaptchaBypass := "" }

/-- Configuration with neither a private key nor a bypass. -/
def cfgNone : Config := { recaptchaPrivateKey := "", recaptchaBypass := "" }

/-- Configuration with a private key and a bypass value. -/
def cfgBypass : Config := { recaptchaPrivateKey := "pk", recaptchaBypass := "tok" }

/-- A plain POST request with a small body. -/
def reqPost : HttpRequest :=
  { method := "POST", body := [123, 125], bodyReadError := none, xForwardedFor := "1.2.3.4" }

/-- A CORS preflight request. -/
def reqOptions : HttpRequest :=
  { method := "OPTIONS", body := [], bodyReadError := none, xForwardedFor := "" }

/-- A GET request identical to reqPost apart from the method. -/
def reqGet : HttpRequest :=
  { method := "GET", body := [123, 125], bodyReadError := none, xForwardedFor := "1.2.3.4" }

/-! ### Path-characterisation lemmas -/

/-- On any non-OPTIONS request whose body read succeeds, the handler
truncates the body to LIMIT bytes, hands exactly those bytes to the
decoder, and branches on the decode result. -/
lemma handler_main_path (env : Env) (cfg : Config) (r : HttpRequest)
    (hm : r.method ≠ "OPTIONS") (hb : r.bodyReadError = none) :
    CORSEnabledFunctionAuth env cfg r =
      match env.decodeBody (r.body.take LIMIT) with
      | none =>
          jsonResponse { headers := mainCorsHeaders, decodeInputs := [r.body.take LIMIT] }
            400 ⟨"error", "error parsing input"⟩
      | some t =>
          verificationStep env cfg r t
            { headers := mainCorsHeaders, decodeInputs := [r.body.take LIMIT] } := by
  unfold CORSEnabledFunctionAuth
  rw [if_neg hm, hb]
  rfl

/-- When the line-149 guard fails, the verification step is a no-op
before storage. -/
lemma verificationStep_skip (env : Env) (cfg : Config) (r : HttpRequest) (t : serverRequest)
    (acc : HandlerResult)
    (h : ¬(cfg.recaptchaPrivateKey ≠ "" ∧
      (cfg.recaptchaBypass = "" ∨ t.reCaptchaToken ≠ cfg.recaptchaBypass))) :
    verificationStep env cfg r t acc = storageStep env t acc := by
  unfold verificationStep
  rw [if_neg h]

/-- When the guard holds and the verification call errors, the step
answers 500 with the error text and stops. -/
lemma verificationStep_error (env : Env) (cfg : Config) (r : HttpRequest) (t : serverRequest)
    (acc : HandlerResult) (e : String)
    (h : cfg.recaptchaPrivateKey ≠ "" ∧
      (cfg.recaptchaBypass = "" ∨ t.reCaptchaToken ≠ cfg.recaptchaBypass))
    (he : (checkRecaptchaToken env cfg t.reCaptchaToken r.xForwardedFor).1 = .error e) :
    verificationStep env cfg r t acc =
      jsonResponse
        { acc with postFormCalls :=
            acc.postFormCalls ++ (checkRecaptchaToken env cfg t.reCaptchaToken r.xForwardedFor).2 }
        500 ⟨"error", e⟩ := by
  unfold verificationStep
  rw [if_pos h]
  simp only []
  rw [he]

/-- When the guard holds and the verification call returns a result,
the step records the outbound call, answers 400 exactly when the
success flag is false, and continues to storage either way. -/
lemma verificationStep_ok (env : Env) (cfg : Config) (r : HttpRequest) (t : serverRequest)
    (acc : HandlerResult) (rr : recaptchaResponse)
    (h : cfg.recaptchaPrivateKey ≠ "" ∧
      (cfg.recaptchaBypass = "" ∨ t.reCaptchaToken ≠ cfg.recaptchaBypass))
    (hok : (checkRecaptchaToken env cfg t.reCaptchaToken r.xForwardedFor).1 = .ok rr) :
    verificationStep env cfg r t acc =
      (if !rr.success then
        storageStep env t
          (jsonResponse
            { acc with postFormCalls :=
                acc.postFormCalls ++ (checkRecaptchaToken env cfg t.reCaptchaToken r.xForwardedFor).2 }
            400 ⟨"error", "recaptcha thinks your are a bot"⟩)
      else
        storageStep env t
          { acc with postFormCalls :=
              acc.postFormCalls ++ (checkRecaptchaToken env cfg t.reCaptchaToken r.xForwardedFor).2 }) := by
  unfold verificationStep
  rw [if_pos h]
  simp only []
  rw [hok]

/-- A failed addRecord call yields the 500 failed-to-upload response. -/
lemma storageStep_fail (env : Env) (t : serverRequest) (acc : HandlerResult) (e : String)
    (hf : env.addRecordResult (formatTimeKey env.now ++ t.id) (env.marshalAnswers t.answers)
      = some e) :
    storageStep env t acc =
      jsonResponse
        { acc with storageCalls := acc.storageCalls ++
            [(formatTimeKey env.now ++ t.id, env.marshalAnswers t.answers)] }
        500 ⟨"error", "failed to upload data " ++ e⟩ := by
  unfold storageStep
  simp only []
  rw [hf]

/-- A successful addRecord call yields the 200 thank-you response. -/
lemma storageStep_success (env : Env) (t : serverRequest) (acc : HandlerResult)
    (hf : env.addRecordResult (formatTimeKey env.now ++ t.id) (env.marshalAnswers t.answers)
      = none) :
    storageStep env t acc =
      jsonResponse
        { acc with storageCalls := acc.storageCalls ++
            [(formatTimeKey env.now ++ t.id, env.marshalAnswers t.answers)] }
        200 ⟨"ok", "thank you"⟩ := by
  unfold storageStep
  simp only []
  rw [hf]

/-- Whatever the write outcome, the storage step makes exactly one
addRecord attempt, with the time-prefixed key and re-marshalled
answers. -/
lemma storageStep_storageCalls (env : Env) (t : serverRequest) (acc : HandlerResult) :
    (storageStep env t acc).storageCalls =
      acc.storageCalls ++ [(formatTimeKey env.now ++ t.id, env.marshalAnswers t.answers)] := by
  unfold storageStep
  simp only []
  cases env.addRecordResult (formatTimeKey env.now ++ t.id) (env.marshalAnswers t.answers) <;>
    simp [jsonResponse]

/-- The storage step makes no outbound verification call. -/
lemma storageStep_postFormCalls (env : Env) (t : serverRequest) (acc : HandlerResult) :
    (storageStep env t acc).postFormCalls = acc.postFormCalls := by
  unfold storageStep
  simp only []
  cases env.addRecordResult (formatTimeKey env.now ++ t.id) (env.marshalAnswers t.answers) <;>
    simp [jsonResponse]

/-- The storage step appends exactly one response to the trace. -/
lemma storageStep_responses (env : Env) (t : serverRequest) (acc : HandlerResult) :
    ∃ c d, (storageStep env t acc).responses = acc.responses ++ [(c, d)] := by
  rcases h : env.addRecordResult (formatTimeKey env.now ++ t.id) (env.marshalAnswers t.answers)
    with _ | e
  · exact ⟨200, ⟨"ok", "thank you"⟩, by rw [storageStep_success env t acc h]; simp [jsonResponse]⟩
  · exact ⟨500, ⟨"error", "failed to upload data " ++ e⟩,
      by rw [storageStep_fail env t acc e h]; simp [jsonResponse]⟩

/-- The verification client always performs exactly one PostForm call,
to the fixed URL, with the secret, remoteip and response form values
built from the configured key and its two string parameters in order. -/
lemma checkRecaptchaToken_calls (env : Env) (cfg : Config) (a b : String) :
    (checkRecaptchaToken env cfg a b).2 =
      [(recaptchaServerName, recaptchaFormValues cfg.recaptchaPrivateKey a b)] := by
  unfold checkRecaptchaToken
  simp only []
  rcases h : env.postFormResult recaptchaServerName
      (recaptchaFormValues cfg.recaptchaPrivateKey a b) with e | body
  · rfl
  · rcases body with e | body
    · rfl
    · rcases h2 : env.decodeRecaptcha body with e | rr <;> simp [h2]

/-- The verification step performs an outbound PostForm call exactly
when the line-149 guard holds, and that call carries the token as the
remoteip value and the X-Forwarded-For header as the response value. -/
lemma verificationStep_postFormCalls (env : Env) (cfg : Config) (r : HttpRequest)
    (t : serverRequest) (acc : HandlerResult) :
    (verificationStep env cfg r t acc).postFormCalls =
      acc.postFormCalls ++
        (if cfg.recaptchaPrivateKey ≠ "" ∧
            (cfg.recaptchaBypass = "" ∨ t.reCaptchaToken ≠ cfg.recaptchaBypass)
         then [(recaptchaServerName,
                recaptchaFormValues cfg.recaptchaPrivateKey t.reCaptchaToken r.xForwardedFor)]
         else []) := by
  by_cases hguard : cfg.recaptchaPrivateKey ≠ "" ∧
      (cfg.recaptchaBypass = "" ∨ t.reCaptchaToken ≠ cfg.recaptchaBypass)
  · unfold verificationStep
    rw [if_pos hguard, if_pos hguard]
    simp only []
    rcases h : (checkRecaptchaToken env cfg t.reCaptchaToken r.xForwardedFor).1 with e | rr
    · simp [jsonResponse, checkRecaptchaToken_calls]
    · cases hs : rr.success <;>
        simp [hs, storageStep_postFormCalls, jsonResponse, checkRecaptchaToken_calls]
  · rw [verificationStep_skip env cfg r t acc hguard, if_neg hguard,
      storageStep_postFormCalls]
    simp

/-- The decode-input trace is fixed before verification and storage and
neither step touches it. -/
lemma verificationStep_decodeInputs (env : Env) (cfg : Config) (r : HttpRequest)
    (t : serverRequest) (acc : HandlerResult) :
    (verificationStep env cfg r t acc).decodeInputs = acc.decodeInputs := by
  have hstep : ∀ acc2 : HandlerResult, (storageStep env t acc2).decodeInputs = acc2.decodeInputs := by
    intro acc2
    unfold storageStep
    simp only []
    cases env.addRecordResult (formatTimeKey env.now ++ t.id) (env.marshalAnswers t.answers) <;>
      simp [jsonResponse]
  by_cases hguard : cfg.recaptchaPrivateKey ≠ "" ∧
      (cfg.recaptchaBypass = "" ∨ t.reCaptchaToken ≠ cfg.recaptchaBypass)
  · unfold verificationStep
    rw [if_pos hguard]
    simp only []
    rcases h : (checkRecaptchaToken env cfg t.reCaptchaToken r.xForwardedFor).1 with e | rr
    · simp [jsonResponse]
    · cases hs : rr.success <;> simp [hs, hstep, jsonResponse]
  · rw [verificationStep_skip env cfg r t acc hguard, hstep]

/-- Specialisation of the main path when decoding succeeds. -/
lemma handler_decode_ok (env : Env) (cfg : Config) (r : HttpRequest) (t : serverRequest)
    (hm : r.method ≠ "OPTIONS") (hb : r.bodyReadError = none)
    (hd : env.decodeBody (r.body.take LIMIT) = some t) :
    CORSEnabledFunctionAuth env cfg r =
      verificationStep env cfg r t
        { headers := mainCorsHeaders, decodeInputs := [r.body.take LIMIT] } := by
  rw [handler_main_path env cfg r hm hb, hd]

/-- Specialisation of the main path when decoding fails. -/
lemma handler_decode_fail (env : Env) (cfg : Config) (r : HttpRequest)
    (hm : r.method ≠ "OPTIONS") (hb : r.bodyReadError = none)
    (hd : env.decodeBody (r.body.take LIMIT) = none) :
    CORSEnabledFunctionAuth env cfg r =
      jsonResponse { headers := mainCorsHeaders, decodeInputs := [r.body.take LIMIT] }
        400 ⟨"error", "error parsing input"⟩ := by
  rw [handler_main_path env cfg r hm hb, hd]

/-- A failing body read yields the 400 must-supply-a-payload response
and nothing else. -/
lemma handler_read_error (env : Env) (cfg : Config) (r : HttpRequest) (e : String)
    (hm : r.method ≠ "OPTIONS") (hb : r.bodyReadError = some e) :
    CORSEnabledFunctionAuth env cfg r =
      jsonResponse { headers := mainCorsHeaders } 400 ⟨"error", "must supply a payload"⟩ := by
  unfold CORSEnabledFunctionAuth
  rw [if_neg hm, hb]

/-- The verification step reads the request only through its
X-Forwarded-For header. -/
lemma verificationStep_xff (env : Env) (cfg : Config) (r r2 : HttpRequest) (t : serverRequest)
    (acc : HandlerResult) (hx : r.xForwardedFor = r2.xForwardedFor) :
    verificationStep env cfg r t acc = verificationStep env cfg r2 t acc := by
  unfold verificationStep
  rw [hx]

/-! ### Claim theorems -/

/-- Claim C9, amended: the OPTIONS branch sets five preflight CORS
headers (the four Access-Control-Allow ones plus Access-Control-Max-Age),
not four.  Every request whose method is OPTIONS receives exactly those
five headers, a bare 204 status, no response body, and returns at once:
no decode, no verification call, no storage write. -/
theorem options_preflight_short_circuit (env : Env) (cfg : Config) (r : HttpRequest)
    (hm : r.method = "OPTIONS") :
    CORSEnabledFunctionAuth env cfg r =
      { headers := corsPreflightHeaders, wroteStatus := some 204 } ∧
    corsPreflightHeaders.length = 5 := by
  constructor
  · unfold CORSEnabledFunctionAuth
    rw [if_pos hm]
  · rfl

/-- Witness for C9 at a concrete OPTIONS request. -/
theorem options_preflight_short_circuit_witness :
    CORSEnabledFunctionAuth envOk cfgKey reqOptions =
      { headers := corsPreflightHeaders, wroteStatus := some 204 } ∧
    corsPreflightHeaders.length = 5 :=
  options_preflight_short_circuit envOk cfgKey reqOptions rfl

/-- Claim C9, counterexample to the claim as stated: at a concrete
OPTIONS request the handler sets five CORS headers, so the response
does not carry four preflight CORS headers. -/
theorem options_sets_five_headers_not_four :
    (CORSEnabledFunctionAuth envOk cfgKey reqOptions).headers.length = 5 ∧
    (CORSEnabledFunctionAuth envOk cfgKey reqOptions).headers.length ≠ 4 := by
  constructor <;> decide

/-- Claim C10: a request with any non-OPTIONS method (GET, PUT,
DELETE, ...) is processed exactly as the same request with method POST:
after the preflight test the handler never inspects the method again,
so the full submission path, including body read, decode, verification
and storage, runs identically. -/
theorem non_options_method_processed_like_post (env : Env) (cfg : Config) (r : HttpRequest)
    (hm : r.method ≠ "OPTIONS") :
    CORSEnabledFunctionAuth env cfg r =
      CORSEnabledFunctionAuth env cfg { r with method := "POST" } := by
  obtain ⟨m, b, br, x⟩ := r
  dsimp only at hm ⊢
  have hm2 : (⟨"POST", b, br, x⟩ : HttpRequest).method ≠ "OPTIONS" := by simp
  rcases br with _ | e
  · rcases hdec : env.decodeBody (b.take LIMIT) with _ | t
    · rw [handler_decode_fail env cfg ⟨m, b, none, x⟩ hm rfl hdec,
        handler_decode_fail env cfg ⟨"POST", b, none, x⟩ hm2 rfl hdec]
    · rw [handler_decode_ok env cfg ⟨m, b, none, x⟩ t hm rfl hdec,
        handler_decode_ok env cfg ⟨"POST", b, none, x⟩ t hm2 rfl hdec]
      exact verificationStep_xff env cfg ⟨m, b, none, x⟩ ⟨"POST", b, none, x⟩ t _ rfl
  · rw [handler_read_error env cfg ⟨m, b, some e, x⟩ e hm rfl,
      handler_read_error env cfg ⟨"POST", b, some e, x⟩ e hm2 rfl]

/-- Witness for C10: a concrete GET request is handled exactly like the
POST request with the same body and headers. -/
theorem non_options_method_processed_like_post_witness :
    CORSEnabledFunctionAuth envOk cfgKey reqGet =
      CORSEnabledFunctionAuth envOk cfgKey { reqGet with method := "POST" } :=
  non_options_method_processed_like_post envOk cfgKey reqGet (by decide)

/-- Claim C4: on every non-OPTIONS request whose body read succeeds the
decoder is handed exactly the first LIMIT = 32768 bytes of the body:
the decode-input trace is the truncation of the body to LIMIT, every
decoded input is at most 32768 bytes long, and a body of at least 32768
bytes is cut to exactly 32768 bytes. -/
theorem body_truncated_to_limit (env : Env) (cfg : Config) (r : HttpRequest)
    (hm : r.method ≠ "OPTIONS") (hb : r.bodyReadError = none) :
    (CORSEnabledFunctionAuth env cfg r).decodeInputs = [r.body.take LIMIT] ∧
    (∀ d ∈ (CORSEnabledFunctionAuth env cfg r).decodeInputs, d.length ≤ 32768) ∧
    (32768 ≤ r.body.length → (r.body.take LIMIT).length = 32768) := by
  have hmain : (CORSEnabledFunctionAuth env cfg r).decodeInputs = [r.body.take LIMIT] := by
    rw [handler_main_path env cfg r hm hb]
    rcases hd : env.decodeBody (r.body.take LIMIT) with _ | t
    · simp [jsonResponse]
    · simp [verificationStep_decodeInputs]
  refine ⟨hmain, ?_, ?_⟩
  · intro d hd2
    rw [hmain] at hd2
    simp only [List.mem_singleton] at hd2
    subst hd2
    simp [LIMIT, List.length_take]
  · intro hl
    simp [LIMIT, List.length_take]
    omega

/-- Witness for C4 at a concrete POST request. -/
theorem body_truncated_to_limit_witness :
    (CORSEnabledFunctionAuth envOk cfgKey reqPost).decodeInputs = [reqPost.body.take LIMIT] ∧
    (∀ d ∈ (CORSEnabledFunctionAuth envOk cfgKey reqPost).decodeInputs, d.length ≤ 32768) ∧
    (32768 ≤ reqPost.body.length → (reqPost.body.take LIMIT).length = 32768) :=
  body_truncated_to_limit envOk cfgKey reqPost (by decide) rfl

/-- Claim C5: a non-OPTIONS request whose truncated body does not
decode answers 400 with the fixed error-parsing-input message and stops:
no outbound verification call and no storage write happens. -/
theorem decode_failure_stops_processing (env : Env) (cfg : Config) (r : HttpRequest)
    (hm : r.method ≠ "OPTIONS") (hb : r.bodyReadError = none)
    (hd : env.decodeBody (r.body.take LIMIT) = none) :
    (CORSEnabledFunctionAuth env cfg r).responses =
      [(400, ⟨"error", "error parsing input"⟩)] ∧
    (CORSEnabledFunctionAuth env cfg r).postFormCalls = [] ∧
    (CORSEnabledFunctionAuth env cfg r).storageCalls = [] := by
  rw [handler_decode_fail env cfg r hm hb hd]
  simp [jsonResponse]

/-- Witness for C5: with a decoder that rejects every input, even a
fully configured verification setup is never consulted. -/
theorem decode_failure_stops_processing_witness :
    (CORSEnabledFunctionAuth envBad cfgKey reqPost).responses =
      [(400, ⟨"error", "error parsing input"⟩)] ∧
    (CORSEnabledFunctionAuth envBad cfgKey reqPost).postFormCalls = [] ∧
    (CORSEnabledFunctionAuth envBad cfgKey reqPost).storageCalls = [] :=
  decode_failure_stops_processing envBad cfgKey reqPost (by decide) rfl rfl

/-- Claim C3: on a decoded non-OPTIONS request the verification client
is invoked exactly when a private key is configured and it is not the
case that a bypass is configured and matched by the token; whenever it
is skipped, processing goes straight to a single storage write. -/
theorem verification_invoked_iff_guard (env : Env) (cfg : Config) (r : HttpRequest)
    (t : serverRequest)
    (hm : r.method ≠ "OPTIONS") (hb : r.bodyReadError = none)
    (hd : env.decodeBody (r.body.take LIMIT) = some t) :
    ((CORSEnabledFunctionAuth env cfg r).postFormCalls ≠ [] ↔
      (cfg.recaptchaPrivateKey ≠ "" ∧
        ¬(cfg.recaptchaBypass ≠ "" ∧ t.reCaptchaToken = cfg.recaptchaBypass))) ∧
    (¬(cfg.recaptchaPrivateKey ≠ "" ∧
        ¬(cfg.recaptchaBypass ≠ "" ∧ t.reCaptchaToken = cfg.recaptchaBypass)) →
      (CORSEnabledFunctionAuth env cfg r).storageCalls =
        [(formatTimeKey env.now ++ t.id, env.marshalAnswers t.answers)]) := by
  have hiff : (cfg.recaptchaBypass = "" ∨ t.reCaptchaToken ≠ cfg.recaptchaBypass) ↔
      ¬(cfg.recaptchaBypass ≠ "" ∧ t.reCaptchaToken = cfg.recaptchaBypass) := by
    tauto
  rw [handler_decode_ok env cfg r t hm hb hd]
  constructor
  · rw [verificationStep_postFormCalls]
    by_cases hguard : cfg.recaptchaPrivateKey ≠ "" ∧
        (cfg.recaptchaBypass = "" ∨ t.reCaptchaToken ≠ cfg.recaptchaBypass)
    · rw [if_pos hguard]
      simp only [List.nil_append]
      constructor
      · intro _
        exact ⟨hguard.1, hiff.mp hguard.2⟩
      · intro _
        simp
    · rw [if_neg hguard]
      simp only [List.append_nil]
      constructor
      · intro h
        exact absurd rfl h
      · intro h2
        exact absurd ⟨h2.1, hiff.mpr h2.2⟩ hguard
  · intro h2
    have hguard : ¬(cfg.recaptchaPrivateKey ≠ "" ∧
        (cfg.recaptchaBypass = "" ∨ t.reCaptchaToken ≠ cfg.recaptchaBypass)) := by
      intro h3
      exact h2 ⟨h3.1, hiff.mp h3.2⟩
    rw [verificationStep_skip env cfg r t _ hguard, storageStep_storageCalls]
    simp

/-- Witness for C3: with no private key configured the client is not
invoked and the storage write happens directly. -/
theorem verification_invoked_iff_guard_witness :
    ((CORSEnabledFunctionAuth envOk cfgNone reqPost).postFormCalls ≠ [] ↔
      (cfgNone.recaptchaPrivateKey ≠ "" ∧
        ¬(cfgNone.recaptchaBypass ≠ "" ∧ tW.reCaptchaToken = cfgNone.recaptchaBypass))) ∧
    (¬(cfgNone.recaptchaPrivateKey ≠ "" ∧
        ¬(cfgNone.recaptchaBypass ≠ "" ∧ tW.reCaptchaToken = cfgNone.recaptchaBypass)) →
      (CORSEnabledFunctionAuth envOk cfgNone reqPost).storageCalls =
        [(formatTimeKey envOk.now ++ tW.id, envOk.marshalAnswers tW.answers)]) :=
  verification_invoked_iff_guard envOk cfgNone reqPost tW (by decide) rfl rfl

/-- Claim C2: every outbound verification call the handler makes posts
to the fixed URL a form in which the caller's token stands under the
remoteip key and the X-Forwarded-For header value under the response
key — the swapped positions of the source. -/
theorem token_sent_as_remoteip (env : Env) (cfg : Config) (r : HttpRequest)
    (t : serverRequest)
    (hm : r.method ≠ "OPTIONS") (hb : r.bodyReadError = none)
    (hd : env.decodeBody (r.body.take LIMIT) = some t)
    (c : String × List (String × String))
    (hc : c ∈ (CORSEnabledFunctionAuth env cfg r).postFormCalls) :
    c.1 = recaptchaServerName ∧
    c.2 = recaptchaFormValues cfg.recaptchaPrivateKey t.reCaptchaToken r.xForwardedFor ∧
    List.lookup "remoteip" c.2 = some t.reCaptchaToken ∧
    List.lookup "response" c.2 = some r.xForwardedFor := by
  rw [handler_decode_ok env cfg r t hm hb hd, verificationStep_postFormCalls] at hc
  by_cases hguard : cfg.recaptchaPrivateKey ≠ "" ∧
      (cfg.recaptchaBypass = "" ∨ t.reCaptchaToken ≠ cfg.recaptchaBypass)
  · rw [if_pos hguard] at hc
    simp only [List.nil_append, List.mem_singleton] at hc
    subst hc
    exact ⟨rfl, rfl, rfl, rfl⟩
  · rw [if_neg hguard] at hc
    simp at hc

/-- Witness for C2 at a concrete verified request. -/
theorem token_sent_as_remoteip_witness :
    ((recaptchaServerName,
        recaptchaFormValues cfgKey.recaptchaPrivateKey tW.reCaptchaToken
          reqPost.xForwardedFor) :
      String × List (String × String)).1 = recaptchaServerName ∧
    ((recaptchaServerName,
        recaptchaFormValues cfgKey.recaptchaPrivateKey tW.reCaptchaToken
          reqPost.xForwardedFor) :
      String × List (String × String)).2 =
      recaptchaFormValues cfgKey.recaptchaPrivateKey tW.reCaptchaToken reqPost.xForwardedFor ∧
    List.lookup "remoteip"
      ((recaptchaServerName,
          recaptchaFormValues cfgKey.recaptchaPrivateKey tW.reCaptchaToken
            reqPost.xForwardedFor) :
        String × List (String × String)).2 = some tW.reCaptchaToken ∧
    List.lookup "response"
      ((recaptchaServerName,
          recaptchaFormValues cfgKey.recaptchaPrivateKey tW.reCaptchaToken
            reqPost.xForwardedFor) :
        String × List (String × String)).2 = some reqPost.xForwardedFor :=
  token_sent_as_remoteip envOk cfgKey reqPost tW (by decide) rfl rfl
    (recaptchaServerName,
      recaptchaFormValues cfgKey.recaptchaPrivateKey tW.reCaptchaToken reqPost.xForwardedFor)
    (by decide)

/-- On a decoded non-OPTIONS request whose verification call, when it
happens at all, returns a decoded result, exactly one addRecord attempt
is made, keyed by the formatted clock value followed by the submitted
identifier and carrying the re-marshalled raw answers. -/
lemma handler_storageCalls (env : Env) (cfg : Config) (r : HttpRequest) (t : serverRequest)
    (hm : r.method ≠ "OPTIONS") (hb : r.bodyReadError = none)
    (hd : env.decodeBody (r.body.take LIMIT) = some t)
    (hverif : cfg.recaptchaPrivateKey ≠ "" ∧
        (cfg.recaptchaBypass = "" ∨ t.reCaptchaToken ≠ cfg.recaptchaBypass) →
      ∃ rr, (checkRecaptchaToken env cfg t.reCaptchaToken r.xForwardedFor).1 = .ok rr) :
    (CORSEnabledFunctionAuth env cfg r).storageCalls =
      [(formatTimeKey env.now ++ t.id, env.marshalAnswers t.answers)] := by
  rw [handler_decode_ok env cfg r t hm hb hd]
  by_cases hguard : cfg.recaptchaPrivateKey ≠ "" ∧
      (cfg.recaptchaBypass = "" ∨ t.reCaptchaToken ≠ cfg.recaptchaBypass)
  · obtain ⟨rr, hok⟩ := hverif hguard
    rw [verificationStep_ok env cfg r t _ rr hguard hok]
    cases hs : rr.success <;> simp [hs, storageStep_storageCalls, jsonResponse]
  · rw [verificationStep_skip env cfg r t _ hguard, storageStep_storageCalls]
    simp

/-- Claim C1: when the verification result carries a false success
flag the handler first writes the fixed 400 bot response, yet still
makes the storage write attempt for the same request — there is no
early return on this branch. -/
theorem failed_verification_continues_to_storage (env : Env) (cfg : Config) (r : HttpRequest)
    (t : serverRequest) (rr : recaptchaResponse)
    (hm : r.method ≠ "OPTIONS") (hb : r.bodyReadError = none)
    (hd : env.decodeBody (r.body.take LIMIT) = some t)
    (hguard : cfg.recaptchaPrivateKey ≠ "" ∧
      (cfg.recaptchaBypass = "" ∨ t.reCaptchaToken ≠ cfg.recaptchaBypass))
    (hok : (checkRecaptchaToken env cfg t.reCaptchaToken r.xForwardedFor).1 = .ok rr)
    (hfail : rr.success = false) :
    (CORSEnabledFunctionAuth env cfg r).responses.head? =
      some (400, ⟨"error", "recaptcha thinks your are a bot"⟩) ∧
    (CORSEnabledFunctionAuth env cfg r).storageCalls =
      [(formatTimeKey env.now ++ t.id, env.marshalAnswers t.answers)] := by
  constructor
  · rw [handler_decode_ok env cfg r t hm hb hd,
      verificationStep_ok env cfg r t _ rr hguard hok]
    simp only [hfail, Bool.not_false, if_true, List.nil_append]
    obtain ⟨c, d, hresp⟩ := storageStep_responses env t
      (jsonResponse
        { headers := mainCorsHeaders, decodeInputs := [r.body.take LIMIT],
          postFormCalls := (checkRecaptchaToken env cfg t.reCaptchaToken r.xForwardedFor).2 }
        400 ⟨"error", "recaptcha thinks your are a bot"⟩)
    rw [hresp]
    simp [jsonResponse]
  · exact handler_storageCalls env cfg r t hm hb hd (fun _ => ⟨rr, hok⟩)

/-- Witness for C1: with a bot-flagging verification service the 400
response is written and the storage write still happens. -/
theorem failed_verification_continues_to_storage_witness :
    (CORSEnabledFunctionAuth envBot cfgKey reqPost).responses.head? =
      some (400, ⟨"error", "recaptcha thinks your are a bot"⟩) ∧
    (CORSEnabledFunctionAuth envBot cfgKey reqPost).storageCalls =
      [(formatTimeKey envBot.now ++ tW.id, envBot.marshalAnswers tW.answers)] :=
  failed_verification_continues_to_storage envBot cfgKey reqPost tW ⟨false⟩
    (by decide) rfl rfl ⟨by decide, Or.inl rfl⟩ rfl rfl

/-- Claim C6: when the storage write fails the handler's final response
is 500 with a message carrying the underlying error text appended to
the fixed failed-to-upload prefix, and the 200 thank-you response is
never emitted for that request. -/
theorem storage_failure_yields_500 (env : Env) (cfg : Config) (r : HttpRequest)
    (t : serverRequest) (e : String)
    (hm : r.method ≠ "OPTIONS") (hb : r.bodyReadError = none)
    (hd : env.decodeBody (r.body.take LIMIT) = some t)
    (hverif : cfg.recaptchaPrivateKey ≠ "" ∧
        (cfg.recaptchaBypass = "" ∨ t.reCaptchaToken ≠ cfg.recaptchaBypass) →
      ∃ rr, (checkRecaptchaToken env cfg t.reCaptchaToken r.xForwardedFor).1 = .ok rr)
    (hfail : env.addRecordResult (formatTimeKey env.now ++ t.id)
      (env.marshalAnswers t.answers) = some e) :
    (CORSEnabledFunctionAuth env cfg r).responses.getLast? =
      some (500, ⟨"error", "failed to upload data " ++ e⟩) ∧
    (200, (⟨"ok", "thank you"⟩ : serverResponse)) ∉
      (CORSEnabledFunctionAuth env cfg r).responses := by
  rw [handler_decode_ok env cfg r t hm hb hd]
  by_cases hguard : cfg.recaptchaPrivateKey ≠ "" ∧
      (cfg.recaptchaBypass = "" ∨ t.reCaptchaToken ≠ cfg.recaptchaBypass)
  · obtain ⟨rr, hok⟩ := hverif hguard
    rw [verificationStep_ok env cfg r t _ rr hguard hok]
    cases hs : rr.success
    · simp only [hs, Bool.not_false, if_true]
      rw [storageStep_fail env t _ e hfail]
      simp [jsonResponse]
    · simp only [hs, Bool.not_true, Bool.false_eq_true, if_false]
      rw [storageStep_fail env t _ e hfail]
      simp [jsonResponse]
  · rw [verificationStep_skip env cfg r t _ hguard, storageStep_fail env t _ e hfail]
    simp [jsonResponse]

/-- Witness for C6: a storage layer failing with the text boom yields
the 500 response carrying boom and no thank-you response. -/
theorem storage_failure_yields_500_witness :
    (CORSEnabledFunctionAuth envFail cfgKey reqPost).responses.getLast? =
      some (500, ⟨"error", "failed to upload data " ++ "boom"⟩) ∧
    (200, (⟨"ok", "thank you"⟩ : serverResponse)) ∉
      (CORSEnabledFunctionAuth envFail cfgKey reqPost).responses :=
  storage_failure_yields_500 envFail cfgKey reqPost tW "boom"
    (by decide) rfl rfl (fun _ => ⟨⟨true⟩, rfl⟩) rfl

/-- Claim C7: with no private key configured a decodable submission
makes exactly one storage write attempt, and when that write succeeds
the only response is 200 with status ok and the fixed thank-you
message. -/
theorem no_private_key_single_write (env : Env) (cfg : Config) (r : HttpRequest)
    (t : serverRequest)
    (hm : r.method ≠ "OPTIONS") (hb : r.bodyReadError = none)
    (hd : env.decodeBody (r.body.take LIMIT) = some t)
    (hpk : cfg.recaptchaPrivateKey = "") :
    (CORSEnabledFunctionAuth env cfg r).storageCalls =
      [(formatTimeKey env.now ++ t.id, env.marshalAnswers t.answers)] ∧
    (env.addRecordResult (formatTimeKey env.now ++ t.id) (env.marshalAnswers t.answers) = none →
      (CORSEnabledFunctionAuth env cfg r).responses =
        [(200, ⟨"ok", "thank you"⟩)]) := by
  have hguard : ¬(cfg.recaptchaPrivateKey ≠ "" ∧
      (cfg.recaptchaBypass = "" ∨ t.reCaptchaToken ≠ cfg.recaptchaBypass)) := by
    intro h
    exact h.1 hpk
  constructor
  · exact handler_storageCalls env cfg r t hm hb hd (fun h => absurd h hguard)
  · intro hw
    rw [handler_decode_ok env cfg r t hm hb hd, verificationStep_skip env cfg r t _ hguard,
      storageStep_success env t _ hw]
    simp [jsonResponse]

/-- Witness for C7 at a concrete request with verification disabled. -/
theorem no_private_key_single_write_witness :
    (CORSEnabledFunctionAuth envOk cfgNone reqPost).storageCalls =
      [(formatTimeKey envOk.now ++ tW.id, envOk.marshalAnswers tW.answers)] ∧
    (envOk.addRecordResult (formatTimeKey envOk.now ++ tW.id) (envOk.marshalAnswers tW.answers)
        = none →
      (CORSEnabledFunctionAuth envOk cfgNone reqPost).responses =
        [(200, ⟨"ok", "thank you"⟩)]) :=
  no_private_key_single_write envOk cfgNone reqPost tW (by decide) rfl rfl rfl

/-- Claim C8: whenever the storage step runs, its single write uses the
key built by formatting the clock value through the
year/month/day/hour/minute layout and appending the caller-supplied
identifier, and carries the re-marshalled raw answers as payload; in
particular the key ends with the identifier. -/
theorem storage_key_time_prefix_id_suffix (env : Env) (cfg : Config) (r : HttpRequest)
    (t : serverRequest)
    (hm : r.method ≠ "OPTIONS") (hb : r.bodyReadError = none)
    (hd : env.decodeBody (r.body.take LIMIT) = some t)
    (hverif : cfg.recaptchaPrivateKey ≠ "" ∧
        (cfg.recaptchaBypass = "" ∨ t.reCaptchaToken ≠ cfg.recaptchaBypass) →
      ∃ rr, (checkRecaptchaToken env cfg t.reCaptchaToken r.xForwardedFor).1 = .ok rr) :
    (CORSEnabledFunctionAuth env cfg r).storageCalls =
      [(formatTimeKey env.now ++ t.id, env.marshalAnswers t.answers)] ∧
    (∃ p, formatTimeKey env.now ++ t.id = p ++ t.id) :=
  ⟨handler_storageCalls env cfg r t hm hb hd hverif, formatTimeKey env.now, rfl⟩

/-- Witness for C8 at a concrete verified request. -/
theorem storage_key_time_prefix_id_suffix_witness :
    (CORSEnabledFunctionAuth envOk cfgKey reqPost).storageCalls =
      [(formatTimeKey envOk.now ++ tW.id, envOk.marshalAnswers tW.answers)] ∧
    (∃ p, formatTimeKey envOk.now ++ tW.id = p ++ tW.id) :=
  storage_key_time_prefix_id_suffix envOk cfgKey reqPost tW
    (by decide) rfl rfl (fun _ => ⟨⟨true⟩, rfl⟩)
